import Mathlib

/-!
Shallow embedding of the core of the database-mcp repository: the backend
engine contract (`src/database/db_engine.py` and its PostgreSQL / MySQL /
Oracle implementations), the engine factory (`src/database/factory.py`) and
the connection registry (`src/database/connection_manager.py`).

Driver-level I/O (SQLAlchemy `connection.execute`) is abstracted as an
oracle function from SQL text and bound parameters to the raw cursor data
the driver would hand back, so that the repository's own control flow —
result-shape dispatch, exception-to-error-dict conversion, registry state
updates — is embedded exactly as written. Python timestamps (`datetime`)
are abstract instants modelled as integers ordered like `datetime` values.
-/

namespace DbMcp

/-- A database value as it appears in result rows (the Python values carried
by SQLAlchemy rows: strings, integers, NULL). -/
inductive Value where
  | str (s : String)
  | int (n : Int)
  | null
deriving DecidableEq, Repr

/-- Embedding of `config.models.DatabaseSource` (src/config/models.py, lines
7-40): a validated pydantic record. The optional dialect fields always exist
as attributes of the pydantic object; absence is the value `None`, modelled
as `Option.none`. -/
structure DatabaseSource where
  name : String
  kind : String
  host : String
  port : Int
  database : String
  user : String
  password : String
  schema : Option String := none
  service_name : Option String := none
  sid : Option String := none
  sslmode : Option String := none
  charset : Option String := none
  timeout : Option Int := none
deriving DecidableEq, Repr

/-- The kinds accepted by the `validate_kind` field validator of
`DatabaseSource` (src/config/models.py, lines 25-32). -/
def validKinds : List String := ["postgres", "mysql", "oracle"]

/-- The three concrete `DatabaseEngine` subclasses. -/
inductive EngineKind where
  | postgres
  | mysql
  | oracle
deriving DecidableEq, Repr

/-- A constructed backend engine instance: one `DatabaseEngine` subclass
object bound to its `DatabaseSource` config. -/
structure DBEngine where
  kind : EngineKind
  config : DatabaseSource
deriving DecidableEq, Repr

/-- Embedding of `DatabaseEngineFactory._engines` (src/database/factory.py, lines 14-19). -/
def factory_engines : List (String × EngineKind) :=
  [("postgres", EngineKind.postgres), ("postgresql", EngineKind.postgres),
   ("mysql", EngineKind.mysql), ("oracle", EngineKind.oracle)]

/-- Model of `db_type.lower()`: characterwise ASCII lowering of the kind string.
(Python `str.lower` agrees with ASCII lowering on every string that can
lower to one of the registered ASCII kind names.) -/
def pyLower (s : String) : String :=
  ⟨s.data.map Char.toLower⟩

/-- Embedding of `DatabaseEngineFactory.create_engine` (src/database/factory.py, lines
21-29): dictionary lookup of `db_type.lower()`; the raised `ValueError` for
an unmapped kind is modelled as `Except.error`. -/
def factory_create_engine (db_type : String) (config : DatabaseSource) :
    Except String DBEngine :=
  match factory_engines.lookup (pyLower db_type) with
  | some k => .ok ⟨k, config⟩
  | none => .error ("Unsupported database type: " ++ db_type)

/-- Raw cursor data as SQLAlchemy exposes it to `execute_query`:
`returns_rows`, `keys()` (column names in order), `fetchall()` (rows as
ordered value lists), and `rowcount`. -/
structure RawResult where
  returns_rows : Bool
  keys : List String
  fetched : List (List Value)
  rowcount : Int
deriving DecidableEq, Repr

/-- Outcome of one driver-level `connection.execute(text(sql), params?)`
call: a cursor, or a raised exception carrying its message. -/
inductive ExecOutcome where
  | ok (r : RawResult)
  | raised (msg : String)
deriving DecidableEq, Repr

/-- The live database as observed through the driver: for each SQL text and
optional bound-parameter mapping, what `connection.execute` yields. -/
def Db : Type := String → Option (List (String × Value)) → ExecOutcome

/-- Embedding of the dictionaries `DatabaseEngine.execute_query` returns:
the row shape `{success, columns, rows, row_count}`, the non-row shape
`{success, message, row_count}`, and the failure shape `{error}`. Each row
is the insertion-ordered mapping `dict(zip(columns, row))`. -/
inductive QueryResult where
  | rowsOk (columns : List String) (rows : List (List (String × Value))) (row_count : Nat)
  | stmtOk (message : String) (row_count : Int)
  | err (error : String)
deriving DecidableEq, Repr

/-- Python truthiness of the `params` argument in `execute_query` (line 95
of src/database/db_engine.py, `if params:`): `None` and the empty dict both
take the parameterless branch. -/
def truthyParams (params : Option (List (String × Value))) :
    Option (List (String × Value)) :=
  match params with
  | some ps => if ps.isEmpty then none else some ps
  | none => none

/-- Embedding of `DatabaseEngine.execute_query` (src/database/db_engine.py, lines 89-119):
execute the statement, dispatch on `returns_rows`, convert every raised
exception into the `{error}` dict. -/
def execute_query (db : Db) (sql : String)
    (params : Option (List (String × Value))) : QueryResult :=
  match db sql (truthyParams params) with
  | .raised e => .err e
  | .ok r =>
    if r.returns_rows then
      let columns := r.keys
      let rows := r.fetched.map (fun row => columns.zip row)
      .rowsOk columns rows rows.length
    else
      .stmtOk "Query executed successfully" r.rowcount

/-- Result dict of `DatabaseEngine.list_tables`. -/
inductive TablesResult where
  | ok (tables : List String) (count : Nat)
  | err (error : String)
deriving DecidableEq, Repr

/-- Result dict of `DatabaseEngine.get_database_info`. -/
inductive InfoResult where
  | ok (database_type : String) (version : Value) (size : Value)
  | err (error : String)
deriving DecidableEq, Repr

/-- The success dict of an explain-plan call: `{success, database_type, sql,
execution_plan, plan_type, note}`. -/
structure PlanOk where
  database_type : String
  sql : String
  execution_plan : List String
  plan_type : String
  note : String
deriving DecidableEq, Repr

/-- Result of an explain-plan call: success dict or `{error}`. -/
inductive PlanResult where
  | ok (p : PlanOk)
  | err (error : String)
deriving DecidableEq, Repr

/-- The error message of a Python `AttributeError` raised when an attribute
named `attr` is looked up on an object of class `cls`. -/
def pyAttrError (cls attr : String) : String :=
  "\x27" ++ cls ++ "\x27 object has no attribute \x27" ++ attr ++ "\x27"

/-!
## Oracle explain plan (src/database/oracle_engine.py, lines 166-237)

The driver-level effects of the two tiers are abstracted as an oracle
record: executing the hint-wrapped statement, fetching the
`DBMS_XPLAN.DISPLAY_CURSOR` output, executing `EXPLAIN PLAN FOR`, the
`commit`, and fetching the `DBMS_XPLAN.DISPLAY` output.
-/

/-- Behaviour of the Oracle database underneath `explain_plan`. -/
structure OracleDb where
  run_hinted : String → Except String Unit
  display_cursor : Except String (List String)
  run_explain : String → Except String Unit
  commit_res : Except String Unit
  display_basic : Except String (List String)

/-- The hint-wrapped statement built at oracle_engine.py line 179:
`SELECT /*+ GATHER_PLAN_STATISTICS */ * FROM ({sql})`. -/
def gatherHintSql (sql : String) : String :=
  "SELECT \x2f*+ GATHER_PLAN_STATISTICS *\x2f * FROM (" ++ sql ++ ")"

/-- The `plan_type` string of the first (actual-statistics) tier. -/
def tier1PlanType : String :=
  "Oracle SQL Developer Style (GATHER_PLAN_STATISTICS + DBMS_XPLAN.DISPLAY_CURSOR)"

/-- The `note` string of the first tier. -/
def tier1Note : String :=
  "This shows actual execution statistics including rows processed, time, and cost."

/-- The `plan_type` string of the fallback (estimated-plan) tier. -/
def tier2PlanType : String :=
  "Oracle SQL Developer Style (EXPLAIN PLAN + DBMS_XPLAN.DISPLAY)"

/-- The `note` string of the fallback tier. -/
def tier2Note : String :=
  "This shows estimated execution plan. For actual statistics, the query must be executable."

/-- The nested try/except body of `OracleEngine.explain_plan` (lines
173-234): tier 1 executes the hint-wrapped statement and reads
`DBMS_XPLAN.DISPLAY_CURSOR`; any exception in that block falls into the
tier-2 block, which registers `EXPLAIN PLAN FOR`, commits, and reads
`DBMS_XPLAN.DISPLAY`; only a tier-2 exception yields the terminal error. -/
def oracle_explain_tiers (odb : OracleDb) (sql : String) : PlanResult :=
  match (odb.run_hinted (gatherHintSql sql)).bind (fun _ => odb.display_cursor) with
  | .ok plan => .ok ⟨"oracle", sql, plan, tier1PlanType, tier1Note⟩
  | .error _ =>
    match (odb.run_explain ("EXPLAIN PLAN FOR " ++ sql)).bind
        (fun _ => odb.commit_res.bind (fun _ => odb.display_basic)) with
    | .ok plan => .ok ⟨"oracle", sql, plan, tier2PlanType, tier2Note⟩
    | .error e => .err ("Unable to get execution plan: " ++ e)

/-- Model of `engine = self.get_engine()` at oracle_engine.py line 169: neither
`OracleEngine` nor its base class `DatabaseEngine` defines a method
`get_engine` (the base class method is named `create_engine`), so this
attribute access raises `AttributeError` before either plan tier runs. -/
def oracle_get_engine : Except String Unit :=
  .error (pyAttrError "OracleEngine" "get_engine")

/-- Embedding of `OracleEngine.explain_plan` (oracle_engine.py, lines 166-237): the outer
try wraps engine acquisition and the two-tier body; its except clause
converts any raise into the `{error}` dict. -/
def oracle_explain_plan (odb : OracleDb) (sql : String) : PlanResult :=
  match oracle_get_engine with
  | .error e => .err e
  | .ok _ => oracle_explain_tiers odb sql

/-!
## PostgreSQL list-tables query (src/database/postgres_engine.py, lines 47-54)
-/

/-- Model of `getattr(self.config, \x27schema\x27, \x27public\x27)` at
postgres_engine.py line 48: `schema` is a declared (optional) pydantic field
of `DatabaseSource`, so the attribute always exists — possibly with value
`None` — and the `public` fallback of `getattr` is never taken. -/
def config_schema_attr (config : DatabaseSource) : Option String :=
  config.schema

/-- Rendering of a Python optional string into an f-string: the value `None`
prints as the four characters `None`. -/
def pyRenderOpt : Option String → String
  | some s => s
  | none => "None"

/-- Embedding of `PostgreSQLEngine.get_tables_query` (postgres_engine.py, lines 47-54):
the triple-quoted f-string, reproduced byte for byte with the schema
attribute interpolated. -/
def postgres_get_tables_query (config : DatabaseSource) : String :=
  let schema := pyRenderOpt (config_schema_attr config)
  "\n            SELECT table_name \n            FROM information_schema.tables \n            WHERE table_schema = \x27" ++
    schema ++ "\x27 \n            ORDER BY table_name\n        "

/-!
## Connection registry (src/database/connection_manager.py)

The registry's `self.connections` dict is modelled as an insertion-ordered
association list; a Python dict holds at most one binding per key, stated
as the `keysNodup` invariant and proved to be preserved by every operation.
The pooled SQLAlchemy `Engine` object that `DatabaseEngine.create_engine`
returns is modelled as an opaque handle so that disposal can be observed.
-/

/-- Handle to a pooled SQLAlchemy `Engine` object. -/
structure SAEngine where
  handle : Nat
deriving DecidableEq, Repr

/-- Embedding of `DatabaseConnection` (connection_manager.py, lines 17-54).
`engine` is the SQLAlchemy `Engine` stored at line 79 — not the
repository's `DatabaseEngine` wrapper, which `create_connection` discards. -/
structure DatabaseConnection where
  connection_id : String
  source : DatabaseSource
  engine : SAEngine
  created_at : Int
  last_used : Int
  is_active : Bool
deriving DecidableEq, Repr

/-- The summary dict built by `DatabaseConnection.to_dict` (lines 41-54). -/
structure ConnSummary where
  connection_id : String
  source_name : String
  database_type : String
  host : String
  port : Int
  database : String
  user : String
  created_at : Int
  last_used : Int
  is_active : Bool
deriving DecidableEq, Repr

/-- Embedding of `DatabaseConnection.to_dict`. -/
def to_dict (c : DatabaseConnection) : ConnSummary :=
  ⟨c.connection_id, c.source.name, c.source.kind, c.source.host, c.source.port,
   c.source.database, c.source.user, c.created_at, c.last_used, c.is_active⟩

/-- The registry state: `self.connections`, an insertion-ordered dict from
connection id to record (connection_manager.py, line 61). -/
structure ManagerState where
  connections : List (String × DatabaseConnection)
deriving DecidableEq, Repr

/-- The Python-dict invariant: keys are pairwise distinct. -/
def keysNodup (st : ManagerState) : Prop :=
  (st.connections.map Prod.fst).Nodup

/-- Python dict assignment `self.connections[cid] = c`: replaces an existing
binding in place, otherwise appends (dicts preserve insertion order). -/
def dictInsert (l : List (String × DatabaseConnection)) (cid : String)
    (c : DatabaseConnection) : List (String × DatabaseConnection) :=
  if l.any (fun p => p.1 == cid) then
    l.map (fun p => if p.1 == cid then (cid, c) else p)
  else
    l ++ [(cid, c)]

/-- Python dict deletion `del self.connections[cid]`: removes the binding
for `cid` (at most one exists in a dict; on a `keysNodup` state this filter
removes exactly that binding). -/
def eraseConn (l : List (String × DatabaseConnection)) (cid : String) :
    List (String × DatabaseConnection) :=
  l.filter (fun p => p.1 != cid)

/-- The effects surrounding one `create_connection` call that the outside
world supplies: the outcome of `db_engine.test_connection()`, the pooled
engine returned by `db_engine.create_engine()`, the freshly drawn
`str(uuid.uuid4())`, and the current instant for the record timestamps. -/
structure CreateEnv where
  test_ok : Bool
  sa : SAEngine
  fresh_id : String
  now : Int
deriving DecidableEq, Repr

/-- The record built at connection_manager.py line 79. -/
def newConnection (env : CreateEnv) (source : DatabaseSource) : DatabaseConnection :=
  { connection_id := env.fresh_id, source := source, engine := env.sa,
    created_at := env.now, last_used := env.now, is_active := true }

/-- Embedding of `EnhancedConnectionManager.create_connection` (lines 64-87): factory,
engine creation, `test_connection`; the exception raised on a failed test
(line 73) propagates (`raise` at line 87) and the registry dict is written
only on the success path. -/
def create_connection (st : ManagerState) (env : CreateEnv)
    (source : DatabaseSource) : Except String String × ManagerState :=
  match factory_create_engine source.kind source with
  | .error e => (.error e, st)
  | .ok _dbe =>
    if env.test_ok then
      (.ok env.fresh_id,
       ⟨dictInsert st.connections env.fresh_id (newConnection env source)⟩)
    else
      (.error ("Failed to connect to " ++ source.kind ++ " database at " ++
        source.host ++ ":" ++ toString source.port), st)

/-- Embedding of `EnhancedConnectionManager.get_connection` (lines 89-95): dict lookup;
found-and-active refreshes `last_used` to the current instant and returns
the record, otherwise `None` is returned and nothing changes. -/
def get_connection (st : ManagerState) (now : Int) (cid : String) :
    Option DatabaseConnection × ManagerState :=
  match st.connections.lookup cid with
  | some c =>
    if c.is_active then
      (some { c with last_used := now },
       ⟨st.connections.map
          (fun p => if p.1 == cid then (p.1, { p.2 with last_used := now }) else p)⟩)
    else
      (none, st)
  | none => (none, st)

/-- Embedding of `EnhancedConnectionManager.list_connections` (lines 97-99): summaries of
the active records, in insertion order. -/
def list_connections (st : ManagerState) : List ConnSummary :=
  ((st.connections.map Prod.snd).filter (fun c => c.is_active)).map to_dict

/-- Embedding of `EnhancedConnectionManager.close_connection` (lines 101-108) together
with `DatabaseConnection.close` (lines 32-39): when the id is bound, the
record's pooled engine is disposed (its handle is appended to the returned
disposal list), the record is marked inactive and the binding deleted; the
boolean reports whether a binding existed. -/
def close_connection (st : ManagerState) (cid : String) :
    Bool × ManagerState × List Nat :=
  match st.connections.lookup cid with
  | some c => (true, ⟨eraseConn st.connections cid⟩, [c.engine.handle])
  | none => (false, st, [])

/-- One iteration of the eviction loop of `cleanup_inactive_connections`
(lines 188-190): close the next collected id, accumulating disposals. -/
def cleanupStep (acc : ManagerState × List Nat) (cid : String) :
    ManagerState × List Nat :=
  ((close_connection acc.1 cid).2.1, acc.2 ++ (close_connection acc.1 cid).2.2)

/-- Embedding of `EnhancedConnectionManager.cleanup_inactive_connections` (lines 177-192):
`cutoff_time = now - timedelta(hours=max_age_hours)` with instants measured
in hours; ids with `last_used < cutoff_time` are collected and then closed
one by one; the count of collected ids is returned. -/
def cleanup_inactive_connections (st : ManagerState) (now : Int)
    (max_age_hours : Int) : Nat × ManagerState × List Nat :=
  let cutoff := now - max_age_hours
  let stale :=
    (st.connections.filter (fun p => decide (p.2.last_used < cutoff))).map Prod.fst
  let final := stale.foldl cleanupStep (st, ([] : List Nat))
  (stale.length, final.1, final.2)

/-!
### Data-path operations (lines 117-175)

Each operation looks the connection up, then calls the corresponding method
on the stored `connection.engine` object inside a try/except that converts
every raise into an `{error: str(e)}` dict. The stored object is the
SQLAlchemy `Engine` (see `DatabaseConnection.engine`), and SQLAlchemy's
`Engine` class defines none of `execute_query`, `list_tables`,
`get_database_info`, `explain_plan` — those methods live on the
repository's own `DatabaseEngine` wrapper, which `create_connection` drops.
Each attribute access therefore raises `AttributeError`, modelled below.
-/

/-- Model of `connection.engine.execute_query(sql, params)` (line 125): attribute
lookup on a SQLAlchemy `Engine` raises `AttributeError`. -/
def saEngine_execute_query (_e : SAEngine) (_sql : String)
    (_params : Option (List (String × Value))) : Except String QueryResult :=
  .error (pyAttrError "Engine" "execute_query")

/-- Model of `connection.engine.list_tables()` (line 140): raises `AttributeError`. -/
def saEngine_list_tables (_e : SAEngine) : Except String TablesResult :=
  .error (pyAttrError "Engine" "list_tables")

/-- Model of `connection.engine.get_database_info()` (line 155): raises
`AttributeError`. -/
def saEngine_get_database_info (_e : SAEngine) : Except String InfoResult :=
  .error (pyAttrError "Engine" "get_database_info")

/-- Model of `connection.engine.explain_plan(sql)` (line 170): raises
`AttributeError`. -/
def saEngine_explain_plan (_e : SAEngine) (_sql : String) :
    Except String PlanResult :=
  .error (pyAttrError "Engine" "explain_plan")

/-- The uniform lookup-miss error text used by every data-path operation. -/
def notFoundMsg (cid : String) : String :=
  "Connection " ++ cid ++ " not found or inactive"

/-- Embedding of `EnhancedConnectionManager.execute_sql` (lines 117-130). -/
def execute_sql (st : ManagerState) (now : Int) (cid : String) (sql : String)
    (params : Option (List (String × Value))) : QueryResult × ManagerState :=
  match get_connection st now cid with
  | (none, st1) => (.err (notFoundMsg cid), st1)
  | (some c, st1) =>
    match saEngine_execute_query c.engine sql params with
    | .ok r => (r, st1)
    | .error e => (.err e, st1)

/-- Embedding of `EnhancedConnectionManager.list_tables` (lines 132-145). -/
def list_tables (st : ManagerState) (now : Int) (cid : String) :
    TablesResult × ManagerState :=
  match get_connection st now cid with
  | (none, st1) => (.err (notFoundMsg cid), st1)
  | (some c, st1) =>
    match saEngine_list_tables c.engine with
    | .ok r => (r, st1)
    | .error e => (.err e, st1)

/-- Embedding of `EnhancedConnectionManager.get_database_info` (lines 147-160). -/
def get_database_info (st : ManagerState) (now : Int) (cid : String) :
    InfoResult × ManagerState :=
  match get_connection st now cid with
  | (none, st1) => (.err (notFoundMsg cid), st1)
  | (some c, st1) =>
    match saEngine_get_database_info c.engine with
    | .ok r => (r, st1)
    | .error e => (.err e, st1)

/-- Embedding of `EnhancedConnectionManager.explain_plan` (lines 162-175). -/
def explain_plan (st : ManagerState) (now : Int) (cid : String) (sql : String) :
    PlanResult × ManagerState :=
  match get_connection st now cid with
  | (none, st1) => (.err (notFoundMsg cid), st1)
  | (some c, st1) =>
    match saEngine_explain_plan c.engine sql with
    | .ok r => (r, st1)
    | .error e => (.err e, st1)

/-!
### Registry histories

For the registry-consistency invariant, the three lifecycle operations are
packaged as a step relation on registry states.
-/

/-- One registry lifecycle call. -/
inductive Op where
  | create (env : CreateEnv) (source : DatabaseSource)
  | close (cid : String)
  | cleanup (now : Int) (max_age_hours : Int)

/-- State reached after one lifecycle call (results discarded). -/
def applyOp (st : ManagerState) : Op → ManagerState
  | .create env source => (create_connection st env source).2
  | .close cid => (close_connection st cid).2.1
  | .cleanup now h => (cleanup_inactive_connections st now h).2.1

/-- State reached after a sequence of lifecycle calls. -/
def runOps (st : ManagerState) (ops : List Op) : ManagerState :=
  ops.foldl applyOp st

/-!
## Concrete example inputs used in closed evaluations
-/

/-- A validated postgres source with no optional fields configured. -/
def srcEx : DatabaseSource :=
  { name := "analytics", kind := "postgres", host := "db.internal",
    port := 5432, database := "warehouse", user := "svc", password := "pw" }

/-- One successful connection-creation environment. -/
def envEx : CreateEnv :=
  { test_ok := true, sa := ⟨7⟩, fresh_id := "cid-1", now := 3 }

/-- A registry holding one active connection, as left by a successful
`create_connection` call. -/
def stEx : ManagerState := ⟨[("cid-1", newConnection envEx srcEx)]⟩

/-- A database on which `SELECT 1` yields one row with one column. -/
def dbRows : Db := fun _ _ => .ok ⟨true, ["one"], [[Value.int 1]], -1⟩

/-- An Oracle database on which a DDL statement is not executable (tier 1
raises) but static plan registration and retrieval succeed (tier 2 works). -/
def odbDdl : OracleDb :=
  { run_hinted := fun _ => .error "ORA-00900: invalid SQL statement",
    display_cursor := .ok ["actual plan"],
    run_explain := fun _ => .ok (),
    commit_res := .ok (),
    display_basic := .ok ["Plan hash value: 123"] }

/-- A registry with two active records of different ages. -/
def stTwo : ManagerState :=
  ⟨[("a", { connection_id := "a", source := srcEx, engine := ⟨1⟩,
            created_at := 1, last_used := 1, is_active := true }),
    ("b", { connection_id := "b", source := srcEx, engine := ⟨2⟩,
            created_at := 5, last_used := 5, is_active := true })]⟩

/-- An example lifecycle history: one successful create, a sweep that
evicts nothing, and a close of an unknown id. -/
def opsEx : List Op :=
  [Op.create envEx srcEx, Op.cleanup 4 24, Op.close "ghost"]

/-!
## Association-list lemmas for the registry dict
-/

theorem lookup_cons_ne {t : List (String × DatabaseConnection)}
    {k ak : String} (ac : DatabaseConnection) (h : k ≠ ak) :
    ((ak, ac) :: t).lookup k = t.lookup k := by
  simp [List.lookup, beq_eq_false_iff_ne.mpr h]

theorem lookup_cons_eq (t : List (String × DatabaseConnection))
    (k : String) (ac : DatabaseConnection) :
    ((k, ac) :: t).lookup k = some ac := by
  simp [List.lookup]

theorem lookup_none_iff (l : List (String × DatabaseConnection)) (k : String) :
    l.lookup k = none ↔ ∀ p ∈ l, p.1 ≠ k := by
  induction l with
  | nil => simp
  | cons a t ih =>
    obtain ⟨ak, ac⟩ := a
    by_cases hak : ak = k
    · subst hak
      rw [lookup_cons_eq]
      simp
    · rw [lookup_cons_ne ac (fun he => hak he.symm), ih]
      constructor
      · intro hall p hp
        rcases List.mem_cons.mp hp with h | h
        · rw [h]
          exact hak
        · exact hall p h
      · intro hall p hp
        exact hall p (List.mem_cons_of_mem _ hp)

theorem lookup_eq_some_of_mem {l : List (String × DatabaseConnection)}
    {k : String} {c : DatabaseConnection}
    (hnd : (l.map Prod.fst).Nodup) (hmem : (k, c) ∈ l) :
    l.lookup k = some c := by
  induction l with
  | nil => simp at hmem
  | cons a t ih =>
    obtain ⟨ak, ac⟩ := a
    simp only [List.map_cons, List.nodup_cons] at hnd
    rcases List.mem_cons.mp hmem with h | h
    · obtain ⟨h1, h2⟩ := Prod.mk.injEq .. ▸ h
      subst h1
      subst h2
      exact lookup_cons_eq t k c
    · have hk : k ≠ ak := by
        intro he
        subst he
        exact hnd.1 (List.mem_map.mpr ⟨(k, c), h, rfl⟩)
      rw [lookup_cons_ne ac hk]
      exact ih hnd.2 h

theorem lookup_append_single {l : List (String × DatabaseConnection)}
    {k : String} (h : l.lookup k = none) (c : DatabaseConnection) :
    (l ++ [(k, c)]).lookup k = some c := by
  induction l with
  | nil => exact lookup_cons_eq [] k c
  | cons a t ih =>
    obtain ⟨ak, ac⟩ := a
    have hk : k ≠ ak :=
      fun he => (lookup_none_iff _ _).mp h (ak, ac) (List.mem_cons_self _ _) he.symm
    rw [List.cons_append, lookup_cons_ne ac hk]
    rw [lookup_cons_ne ac hk] at h
    exact ih h

theorem dictInsert_of_lookup_none {l : List (String × DatabaseConnection)}
    {k : String} (h : l.lookup k = none) (c : DatabaseConnection) :
    dictInsert l k c = l ++ [(k, c)] := by
  unfold dictInsert
  rw [if_neg]
  intro hp
  simp only [List.any_eq_true, beq_iff_eq] at hp
  obtain ⟨p, hmem, hpk⟩ := hp
  exact (lookup_none_iff _ _).mp h p hmem hpk

theorem eraseConn_of_lookup_none {l : List (String × DatabaseConnection)}
    {k : String} (h : l.lookup k = none) : eraseConn l k = l := by
  unfold eraseConn
  apply List.filter_eq_self.mpr
  intro p hp
  simpa using (lookup_none_iff _ _).mp h p hp

theorem lookup_eraseConn_self (l : List (String × DatabaseConnection))
    (k : String) : (eraseConn l k).lookup k = none := by
  rw [lookup_none_iff]
  intro p hp
  have := List.of_mem_filter hp
  simpa using this

theorem lookup_eraseConn_ne (l : List (String × DatabaseConnection))
    {k k1 : String} (h : k1 ≠ k) :
    (eraseConn l k).lookup k1 = l.lookup k1 := by
  induction l with
  | nil => simp [eraseConn]
  | cons a t ih =>
    obtain ⟨ak, ac⟩ := a
    by_cases hak : ak = k
    · have hne : ((ak, ac).1 != k) = false := by simpa using hak
      rw [show eraseConn ((ak, ac) :: t) k = eraseConn t k by
        simp [eraseConn, List.filter, hne]]
      rw [ih, lookup_cons_ne ac (fun he => h (he.trans hak))]
    · have hne : ((ak, ac).1 != k) = true := by simpa using hak
      rw [show eraseConn ((ak, ac) :: t) k = (ak, ac) :: eraseConn t k by
        simp [eraseConn, List.filter, hne]]
      by_cases hk1 : k1 = ak
      · subst hk1
        rw [lookup_cons_eq, lookup_cons_eq]
      · rw [lookup_cons_ne ac hk1, lookup_cons_ne ac hk1, ih]

theorem close_connection_state (st : ManagerState) (cid : String) :
    (close_connection st cid).2.1 = ⟨eraseConn st.connections cid⟩ := by
  unfold close_connection
  cases h : st.connections.lookup cid with
  | some c => rfl
  | none => simp [eraseConn_of_lookup_none h]

theorem foldl_cleanupStep_state (ids : List String) (st : ManagerState)
    (ds : List Nat) :
    (ids.foldl cleanupStep (st, ds)).1 = ⟨ids.foldl eraseConn st.connections⟩ := by
  induction ids generalizing st ds with
  | nil => rfl
  | cons k ks ih =>
    simp only [List.foldl_cons]
    rw [show cleanupStep (st, ds) k =
      ((close_connection st k).2.1, ds ++ (close_connection st k).2.2) from rfl]
    rw [ih, close_connection_state]

theorem foldl_cleanupStep_disposed (ids : List String) (st : ManagerState)
    (ds : List Nat) (hnd : ids.Nodup) :
    (ids.foldl cleanupStep (st, ds)).2 =
      ds ++ ids.filterMap
        (fun k => (st.connections.lookup k).map (fun c => c.engine.handle)) := by
  induction ids generalizing st ds with
  | nil => simp
  | cons k ks ih =>
    obtain ⟨hk, hks⟩ := List.nodup_cons.mp hnd
    simp only [List.foldl_cons]
    rw [show cleanupStep (st, ds) k =
      ((close_connection st k).2.1, ds ++ (close_connection st k).2.2) from rfl]
    rw [ih _ _ hks]
    have hcongr : ks.filterMap
        (fun k1 => (((close_connection st k).2.1).connections.lookup k1).map
          (fun c => c.engine.handle)) =
        ks.filterMap
        (fun k1 => (st.connections.lookup k1).map (fun c => c.engine.handle)) := by
      apply List.filterMap_congr
      intro k1 hk1
      rw [close_connection_state]
      rw [show (ManagerState.mk (eraseConn st.connections k)).connections =
        eraseConn st.connections k from rfl]
      rw [lookup_eraseConn_ne _ (fun he => hk (by rw [← he]; exact hk1))]
    rw [hcongr, List.filterMap_cons]
    cases hc : st.connections.lookup k with
    | none => simp [close_connection, hc]
    | some c => simp [close_connection, hc]

theorem foldl_eraseConn_eq_filter (ids : List String)
    (l : List (String × DatabaseConnection)) :
    ids.foldl eraseConn l = l.filter (fun p => !(ids.contains p.1)) := by
  induction ids generalizing l with
  | nil => simp
  | cons k ks ih =>
    simp only [List.foldl_cons]
    rw [ih]
    unfold eraseConn
    rw [List.filter_filter]
    apply List.filter_congr
    intro p _
    simp only [List.contains_cons, Bool.not_or, bne, beq_eq_decide]
    exact Bool.and_comm _ _

theorem keys_eq_of_mem_nodup {l : List (String × DatabaseConnection)}
    (hnd : (l.map Prod.fst).Nodup) {p q : String × DatabaseConnection}
    (hp : p ∈ l) (hq : q ∈ l) (hk : p.1 = q.1) : p = q := by
  have hlp := lookup_eq_some_of_mem hnd (show (p.1, p.2) ∈ l by simpa using hp)
  have hlq := lookup_eq_some_of_mem hnd (show (q.1, q.2) ∈ l by simpa using hq)
  rw [hk] at hlp
  rw [hlp] at hlq
  exact Prod.ext hk (Option.some_injective _ hlq)

theorem cleanup_characterization (st : ManagerState) (now h : Int)
    (hwf : keysNodup st) :
    cleanup_inactive_connections st now h =
      ((st.connections.filter (fun p => decide (p.2.last_used < now - h))).length,
       ⟨st.connections.filter (fun p => !decide (p.2.last_used < now - h))⟩,
       (st.connections.filter (fun p => decide (p.2.last_used < now - h))).map
         (fun p => p.2.engine.handle)) := by
  unfold cleanup_inactive_connections
  set P : String × DatabaseConnection → Bool :=
    fun p => decide (p.2.last_used < now - h) with hP
  set ids : List String := (st.connections.filter P).map Prod.fst with hids
  have hsub : (st.connections.filter P).Sublist st.connections :=
    List.filter_sublist _
  have hndids : ids.Nodup := by
    rw [hids]
    exact List.Nodup.sublist (hsub.map Prod.fst) hwf
  refine Prod.ext ?_ (Prod.ext ?_ ?_)
  · simp [hids]
  · rw [foldl_cleanupStep_state, foldl_eraseConn_eq_filter]
    simp only
    congr 1
    apply List.filter_congr
    intro p hp
    congr 1
    rw [← hP, ← hids]
    show ids.contains p.1 = P p
    by_cases hPp : P p = true
    · rw [hPp]
      have : p.1 ∈ ids := by
        rw [hids]
        exact List.mem_map.mpr ⟨p, List.mem_filter.mpr ⟨hp, hPp⟩, rfl⟩
      exact List.elem_eq_true_of_mem this
    · rw [Bool.not_eq_true] at hPp
      rw [hPp]
      rw [show (ids.contains p.1) = false from ?_]
      rw [Bool.eq_false_iff]
      intro hcon
      have hmem : p.1 ∈ ids := List.mem_of_elem_eq_true hcon
      obtain ⟨q, hq, hqk⟩ := List.mem_map.mp (hids ▸ hmem)
      obtain ⟨hql, hqP⟩ := List.mem_filter.mp hq
      have := keys_eq_of_mem_nodup hwf hql hp hqk
      rw [this] at hqP
      rw [hPp] at hqP
      simp at hqP
  · rw [foldl_cleanupStep_disposed _ _ _ hndids]
    rw [List.nil_append, hids, List.filterMap_map]
    have : ∀ q ∈ st.connections.filter P,
        ((fun k => (st.connections.lookup k).map (fun c => c.engine.handle)) ∘
          Prod.fst) q = some q.2.engine.handle := by
      intro q hq
      have hql : q ∈ st.connections := List.mem_of_mem_filter hq
      have : st.connections.lookup q.1 = some q.2 :=
        lookup_eq_some_of_mem hwf (show (q.1, q.2) ∈ st.connections by
          simpa using hql)
      simp [Function.comp, this]
    rw [List.filterMap_congr this]
    exact congr_fun (List.filterMap_eq_map _) _

/-!
## The registry dict invariant and its preservation
-/

/-- Well-formedness of the registry state: the Python-dict key uniqueness,
plus the fact (maintained by `create_connection`, which keys each record by
its own `connection_id`) that a record's id field equals its key. -/
def wfState (st : ManagerState) : Prop :=
  keysNodup st ∧ ∀ p ∈ st.connections, p.2.connection_id = p.1

theorem wf_dictInsert {l : List (String × DatabaseConnection)} {k : String}
    {c : DatabaseConnection} (hwf : wfState ⟨l⟩) (hc : c.connection_id = k) :
    wfState ⟨dictInsert l k c⟩ := by
  obtain ⟨hnd, hid⟩ := hwf
  unfold dictInsert
  by_cases hany : l.any (fun p => p.1 == k) = true
  · rw [if_pos hany]
    constructor
    · have hkeys : (l.map (fun p => if p.1 == k then (k, c) else p)).map Prod.fst =
          l.map Prod.fst := by
        rw [List.map_map]
        apply List.map_congr_left
        intro p _
        by_cases hpk : p.1 = k
        · simp [Function.comp, hpk]
        · simp [Function.comp, beq_eq_false_iff_ne.mpr hpk]
      show ((l.map (fun p => if p.1 == k then (k, c) else p)).map Prod.fst).Nodup
      rw [hkeys]
      exact hnd
    · intro p hp
      obtain ⟨q, hq, hqe⟩ := List.mem_map.mp hp
      by_cases hqk : q.1 = k
      · rw [← hqe]
        simp [beq_iff_eq.mpr hqk, hc]
      · rw [← hqe]
        simp only [beq_eq_false_iff_ne.mpr hqk, Bool.false_eq_true, if_false]
        exact hid q hq
  · rw [if_neg hany]
    constructor
    · show ((l ++ [(k, c)]).map Prod.fst).Nodup
      rw [List.map_append]
      rw [List.nodup_append]
      refine ⟨hnd, List.nodup_singleton k, ?_⟩
      intro a ha hb
      simp only [List.map_cons, List.map_nil, List.mem_singleton] at hb
      subst hb
      obtain ⟨p, hp, hpk⟩ := List.mem_map.mp ha
      refine hany (List.any_eq_true.mpr ⟨p, hp, ?_⟩)
      exact beq_iff_eq.mpr hpk
    · intro p hp
      rcases List.mem_append.mp hp with h1 | h1
      · exact hid p h1
      · simp only [List.mem_singleton] at h1
        subst h1
        exact hc

theorem wf_eraseConn {l : List (String × DatabaseConnection)} (k : String)
    (hwf : wfState ⟨l⟩) : wfState ⟨eraseConn l k⟩ := by
  obtain ⟨hnd, hid⟩ := hwf
  constructor
  · exact List.Nodup.sublist ((List.filter_sublist l).map Prod.fst) hnd
  · intro p hp
    exact hid p (List.mem_of_mem_filter hp)

theorem wf_foldl_eraseConn (ids : List String)
    {l : List (String × DatabaseConnection)} (hwf : wfState ⟨l⟩) :
    wfState ⟨ids.foldl eraseConn l⟩ := by
  induction ids generalizing l with
  | nil => exact hwf
  | cons k ks ih => exact ih (wf_eraseConn k hwf)

theorem wf_applyOp (st : ManagerState) (op : Op) (hwf : wfState st) :
    wfState (applyOp st op) := by
  cases op with
  | create env source =>
    show wfState (create_connection st env source).2
    unfold create_connection
    cases factory_create_engine source.kind source with
    | error e => exact hwf
    | ok dbe =>
      by_cases ht : env.test_ok = true
      · simp only [ht, if_true]
        exact wf_dictInsert (show wfState ⟨st.connections⟩ from hwf) rfl
      · rw [Bool.not_eq_true] at ht
        simp only [ht, Bool.false_eq_true, if_false]
        exact hwf
  | close cid =>
    show wfState (close_connection st cid).2.1
    rw [close_connection_state]
    exact wf_eraseConn cid hwf
  | cleanup now h =>
    show wfState (cleanup_inactive_connections st now h).2.1
    unfold cleanup_inactive_connections
    simp only
    rw [foldl_cleanupStep_state]
    exact wf_foldl_eraseConn _ hwf

theorem wf_runOps (st : ManagerState) (ops : List Op) (hwf : wfState st) :
    wfState (runOps st ops) := by
  induction ops generalizing st with
  | nil => exact hwf
  | cons op rest ih => exact ih _ (wf_applyOp st op hwf)

theorem wf_empty : wfState ⟨[]⟩ := by
  constructor
  · exact List.nodup_nil
  · intro p hp
    cases hp

theorem get_connection_miss (st : ManagerState) (now : Int) (cid : String)
    (h : st.connections.lookup cid = none ∨
      ∃ c, st.connections.lookup cid = some c ∧ c.is_active = false) :
    get_connection st now cid = (none, st) := by
  unfold get_connection
  rcases h with h | ⟨c, hc, hact⟩
  · rw [h]
  · rw [hc]
    simp [hact]

/-!
## The claims
-/

/-- C9: `DatabaseEngineFactory.create_engine` is a case-insensitive
lookup: every kind string whose lowering is `postgres` or `postgresql`
yields a PostgreSQL engine, `mysql` a MySQL engine, `oracle` an Oracle
engine, each constructed from the given source; every string outside this
mapping yields the unsupported-database-type error and constructs no
engine. -/
theorem factory_create_engine_lookup (s : String) (config : DatabaseSource) :
    (pyLower s = "postgres" ∨ pyLower s = "postgresql" →
      factory_create_engine s config = .ok ⟨.postgres, config⟩) ∧
    (pyLower s = "mysql" →
      factory_create_engine s config = .ok ⟨.mysql, config⟩) ∧
    (pyLower s = "oracle" →
      factory_create_engine s config = .ok ⟨.oracle, config⟩) ∧
    (pyLower s ∉ ["postgres", "postgresql", "mysql", "oracle"] →
      factory_create_engine s config =
        .error ("Unsupported database type: " ++ s)) := by
  refine ⟨?_, ?_, ?_, ?_⟩
  · rintro (h | h) <;>
      simp [factory_create_engine, h, factory_engines, List.lookup]
  · intro h
    simp [factory_create_engine, h, factory_engines, List.lookup]
  · intro h
    simp [factory_create_engine, h, factory_engines, List.lookup]
  · intro h
    simp only [List.mem_cons, not_or, List.not_mem_nil] at h
    obtain ⟨h1, h2, h3, h4, -⟩ := h
    simp [factory_create_engine, factory_engines, List.lookup,
      beq_eq_false_iff_ne.mpr h1, beq_eq_false_iff_ne.mpr h2,
      beq_eq_false_iff_ne.mpr h3, beq_eq_false_iff_ne.mpr h4]

/-- Witness for C9: `MYSQL` (case-varied) succeeds, `sqlite` fails. -/
theorem factory_create_engine_lookup_witness :
    factory_create_engine "MYSQL" srcEx = .ok ⟨.mysql, srcEx⟩ ∧
    factory_create_engine "sqlite" srcEx =
      .error "Unsupported database type: sqlite" :=
  ⟨(factory_create_engine_lookup "MYSQL" srcEx).2.1 (by decide),
   (factory_create_engine_lookup "sqlite" srcEx).2.2.2 (by decide)⟩

/-- C4: `DatabaseEngine.execute_query` returns exactly one of three
shapes: for a row-returning statement the row shape whose columns are the
cursor's column names in order, whose rows are the zipped name-to-value
mappings, and whose `row_count` is the length of `rows`; for a non-row
statement the message shape carrying the driver's affected-row count; and
for any raised exception the error shape — no exception propagates. -/
theorem execute_query_shapes (db : Db) (sql : String)
    (params : Option (List (String × Value))) :
    (∀ e, db sql (truthyParams params) = .raised e →
      execute_query db sql params = .err e) ∧
    (∀ r, db sql (truthyParams params) = .ok r → r.returns_rows = true →
      ∃ rows, execute_query db sql params = .rowsOk r.keys rows rows.length ∧
        rows = r.fetched.map (fun row => r.keys.zip row)) ∧
    (∀ r, db sql (truthyParams params) = .ok r → r.returns_rows = false →
      execute_query db sql params =
        .stmtOk "Query executed successfully" r.rowcount) := by
  refine ⟨?_, ?_, ?_⟩
  · intro e he
    unfold execute_query
    rw [he]
  · intro r hr hrows
    refine ⟨r.fetched.map (fun row => r.keys.zip row), ?_, rfl⟩
    unfold execute_query
    rw [hr]
    simp [hrows]
  · intro r hr hrows
    unfold execute_query
    rw [hr]
    simp [hrows]

/-- Witness for C4: a one-row result takes the row shape with
`row_count = 1`. -/
theorem execute_query_shapes_witness :
    execute_query dbRows "SELECT 1" none =
      .rowsOk ["one"] [[("one", Value.int 1)]] 1 := by
  obtain ⟨rows, he, hrows⟩ :=
    (execute_query_shapes dbRows "SELECT 1" none).2.1
      ⟨true, ["one"], [[Value.int 1]], -1⟩ rfl rfl
  rw [he]
  subst hrows
  rfl

/-- C8 counter-evaluation: `PostgreSQLEngine.get_tables_query` with no
configured schema interpolates the Python value `None` into the SQL text and
filters `information_schema.tables` by the literal schema name `None` — not
by `public` as specified; with a configured schema it filters by that schema
and orders by table name. -/
theorem postgres_tables_query_schema_literal :
    postgres_get_tables_query srcEx =
      "\n            SELECT table_name \n            FROM information_schema.tables \n            WHERE table_schema = \x27None\x27 \n            ORDER BY table_name\n        " ∧
    postgres_get_tables_query { srcEx with schema := some "reporting" } =
      "\n            SELECT table_name \n            FROM information_schema.tables \n            WHERE table_schema = \x27reporting\x27 \n            ORDER BY table_name\n        " := by
  constructor
  · rfl
  · rfl

/-- C5 counter-evaluation: `OracleEngine.explain_plan` calls the
undefined method `self.get_engine()` before either plan tier, so for every
statement — here a DDL statement on a database where the fallback tier
would succeed — it returns the `AttributeError` error dict instead of the
claimed fallback success; the unreachable two-tier body below the slip
would indeed have produced the fallback success. -/
theorem oracle_explain_plan_attribute_error :
    oracle_explain_plan odbDdl "CREATE INDEX idx ON t(x)" =
      .err (pyAttrError "OracleEngine" "get_engine") ∧
    oracle_explain_tiers odbDdl "CREATE INDEX idx ON t(x)" =
      .ok ⟨"oracle", "CREATE INDEX idx ON t(x)", ["Plan hash value: 123"],
        tier2PlanType, tier2Note⟩ := by
  constructor
  · rfl
  · rfl

/-- C2 counter-evaluation: On a registry holding an active connection,
every data-path operation calls the missing method on the stored SQLAlchemy
`Engine` and returns an `AttributeError` error dict — not the bound backend
engine's result: `execute_sql` differs from what the backend wrapper's
`execute_query` yields on the same statement. -/
theorem execute_sql_attribute_error :
    (execute_sql stEx 9 "cid-1" "SELECT 1" none).1 =
      .err (pyAttrError "Engine" "execute_query") ∧
    execute_query dbRows "SELECT 1" none =
      .rowsOk ["one"] [[("one", Value.int 1)]] 1 ∧
    (execute_sql stEx 9 "cid-1" "SELECT 1" none).1 ≠
      execute_query dbRows "SELECT 1" none ∧
    (list_tables stEx 9 "cid-1").1 = .err (pyAttrError "Engine" "list_tables") ∧
    (get_database_info stEx 9 "cid-1").1 =
      .err (pyAttrError "Engine" "get_database_info") ∧
    (explain_plan stEx 9 "cid-1" "SELECT 1").1 =
      .err (pyAttrError "Engine" "explain_plan") := by
  refine ⟨rfl, rfl, ?_, rfl, rfl, rfl⟩
  decide

/-- C1: `create_connection` is atomic on failure: for every validated
source and fresh identifier, when `test_connection` fails it raises the
connection-establishment error and leaves the registry mapping exactly as
it was, registering nothing and returning no id; only when the test
succeeds is the fresh id stored (appended with its new record) and
returned, and the record is then retrievable under that id. -/
theorem create_connection_atomic (st : ManagerState) (env : CreateEnv)
    (source : DatabaseSource) (hkind : source.kind ∈ validKinds)
    (hfresh : st.connections.lookup env.fresh_id = none) :
    (env.test_ok = false →
      create_connection st env source =
        (.error ("Failed to connect to " ++ source.kind ++ " database at " ++
          source.host ++ ":" ++ toString source.port), st)) ∧
    (env.test_ok = true →
      create_connection st env source =
        (.ok env.fresh_id,
         ⟨st.connections ++ [(env.fresh_id, newConnection env source)]⟩) ∧
      (st.connections ++
        [(env.fresh_id, newConnection env source)]).lookup env.fresh_id =
          some (newConnection env source)) := by
  have hfac : ∃ k, factory_create_engine source.kind source = .ok ⟨k, source⟩ := by
    have hkind2 : source.kind = "postgres" ∨ source.kind = "mysql" ∨
        source.kind = "oracle" := by
      simpa [validKinds] using hkind
    rcases hkind2 with h | h | h
    · exact ⟨.postgres, by rw [h]; rfl⟩
    · exact ⟨.mysql, by rw [h]; rfl⟩
    · exact ⟨.oracle, by rw [h]; rfl⟩
  obtain ⟨k, hk⟩ := hfac
  constructor
  · intro ht
    unfold create_connection
    rw [hk, ht]
    rfl
  · intro ht
    refine ⟨?_, lookup_append_single hfresh _⟩
    unfold create_connection
    rw [hk, ht]
    simp only [if_true]
    rw [dictInsert_of_lookup_none hfresh]

/-- Witness for C1: both branches evaluated on a concrete registry. -/
theorem create_connection_atomic_witness :
    create_connection ⟨[]⟩ { envEx with test_ok := false } srcEx =
      (.error "Failed to connect to postgres database at db.internal:5432",
       ⟨[]⟩) ∧
    create_connection ⟨[]⟩ envEx srcEx =
      (.ok "cid-1", ⟨[("cid-1", newConnection envEx srcEx)]⟩) := by
  constructor
  · exact (create_connection_atomic ⟨[]⟩ { envEx with test_ok := false } srcEx
      (by decide) rfl).1 rfl
  · exact ((create_connection_atomic ⟨[]⟩ envEx srcEx
      (by decide) rfl).2 rfl).1

/-- C3: For every connection id that is absent from the registry or
bound to an inactive record, each of the four data-path operations returns
the uniform error dict `Connection <id> not found or inactive`; the
operations are total result-returning functions — the miss is returned,
never raised. -/
theorem data_path_not_found_uniform (st : ManagerState) (now : Int)
    (cid sql : String) (params : Option (List (String × Value)))
    (h : st.connections.lookup cid = none ∨
      ∃ c, st.connections.lookup cid = some c ∧ c.is_active = false) :
    (execute_sql st now cid sql params).1 = .err (notFoundMsg cid) ∧
    (list_tables st now cid).1 = .err (notFoundMsg cid) ∧
    (get_database_info st now cid).1 = .err (notFoundMsg cid) ∧
    (explain_plan st now cid sql).1 = .err (notFoundMsg cid) := by
  have hmiss := get_connection_miss st now cid h
  refine ⟨?_, ?_, ?_, ?_⟩
  · unfold execute_sql
    rw [hmiss]
  · unfold list_tables
    rw [hmiss]
  · unfold get_database_info
    rw [hmiss]
  · unfold explain_plan
    rw [hmiss]

/-- Witness for C3: an id never created, and a closed (inactive) record. -/
theorem data_path_not_found_witness :
    (execute_sql ⟨[]⟩ 0 "deadbeef" "SELECT 1" none).1 =
      .err (notFoundMsg "deadbeef") ∧
    (list_tables ⟨[]⟩ 0 "deadbeef").1 = .err (notFoundMsg "deadbeef") ∧
    (get_database_info ⟨[]⟩ 0 "deadbeef").1 = .err (notFoundMsg "deadbeef") ∧
    (explain_plan ⟨[]⟩ 0 "deadbeef" "SELECT 1").1 =
      .err (notFoundMsg "deadbeef") :=
  data_path_not_found_uniform ⟨[]⟩ 0 "deadbeef" "SELECT 1" none (Or.inl rfl)

/-- C7: `close_connection` returns `false` (and changes nothing) when
the id is unbound, and `true` when a record exists — in which case the
record's pooled engine is disposed, the binding is removed, and a
subsequent `get_connection` on that id reports not-found. -/
theorem close_connection_spec (st : ManagerState) (cid : String) (now : Int) :
    (st.connections.lookup cid = none →
      close_connection st cid = (false, st, [])) ∧
    (∀ c, st.connections.lookup cid = some c →
      close_connection st cid =
        (true, ⟨eraseConn st.connections cid⟩, [c.engine.handle]) ∧
      (eraseConn st.connections cid).lookup cid = none ∧
      (get_connection ⟨eraseConn st.connections cid⟩ now cid).1 = none) := by
  constructor
  · intro h
    unfold close_connection
    rw [h]
  · intro c hc
    refine ⟨?_, lookup_eraseConn_self _ _, ?_⟩
    · unfold close_connection
      rw [hc]
    · exact congrArg Prod.fst
        (get_connection_miss ⟨eraseConn st.connections cid⟩ now cid
          (Or.inl (lookup_eraseConn_self _ _)))

/-- Witness for C7: closing the one live connection, and a never-created
id. -/
theorem close_connection_spec_witness :
    close_connection stEx "cid-1" =
      (true, ⟨([] : List (String × DatabaseConnection))⟩, [7]) ∧
    (get_connection ⟨([] : List (String × DatabaseConnection))⟩ 9 "cid-1").1 =
      none ∧
    close_connection stEx "ghost" = (false, stEx, []) := by
  obtain ⟨h1, -, h3⟩ :=
    (close_connection_spec stEx "cid-1" 9).2 (newConnection envEx srcEx) rfl
  exact ⟨h1, h3, (close_connection_spec stEx "ghost" 9).1 rfl⟩

/-- C6: `cleanup_inactive_connections` removes exactly the records whose
`last_used` precedes `now - max_age_hours`, disposing each removed record's
engine and returning the evicted count, while keeping every younger record
untouched; with age 0 (when every record was touched strictly in the past)
it evicts every registered connection and returns the number that were
active; with a sufficiently large age it evicts none and leaves the state
unchanged. -/
theorem cleanup_inactive_spec (st : ManagerState) (now h : Int)
    (hwf : keysNodup st) :
    (cleanup_inactive_connections st now h =
      ((st.connections.filter (fun p => decide (p.2.last_used < now - h))).length,
       ⟨st.connections.filter (fun p => !decide (p.2.last_used < now - h))⟩,
       (st.connections.filter (fun p => decide (p.2.last_used < now - h))).map
         (fun p => p.2.engine.handle))) ∧
    ((∀ p ∈ st.connections, p.2.last_used < now) →
      (∀ p ∈ st.connections, p.2.is_active = true) →
      cleanup_inactive_connections st now 0 =
        ((list_connections st).length, ⟨[]⟩,
         st.connections.map (fun p => p.2.engine.handle))) ∧
    ((∀ p ∈ st.connections, now - h ≤ p.2.last_used) →
      cleanup_inactive_connections st now h = (0, st, [])) := by
  refine ⟨cleanup_characterization st now h hwf, ?_, ?_⟩
  · intro hpast hact
    rw [cleanup_characterization st now 0 hwf]
    have hall : ∀ p ∈ st.connections,
        (fun p => decide (p.2.last_used < now - 0)) p = true := by
      intro p hp
      simpa using hpast p hp
    have h1 : st.connections.filter
        (fun p => decide (p.2.last_used < now - 0)) = st.connections :=
      List.filter_eq_self.mpr hall
    have h2 : st.connections.filter
        (fun p => !decide (p.2.last_used < now - 0)) = [] := by
      rw [List.filter_eq_nil_iff]
      intro p hp
      simpa using hpast p hp
    have h3 : (list_connections st).length = st.connections.length := by
      unfold list_connections
      rw [List.length_map]
      rw [List.filter_eq_self.mpr (fun c hc => ?_), List.length_map]
      obtain ⟨p, hp, hpc⟩ := List.mem_map.mp hc
      rw [← hpc]
      exact hact p hp
    rw [h1, h2, h3]
  · intro hyoung
    have h1 : st.connections.filter
        (fun p => decide (p.2.last_used < now - h)) = [] := by
      rw [List.filter_eq_nil_iff]
      intro p hp
      simpa using hyoung p hp
    have h2 : st.connections.filter
        (fun p => !decide (p.2.last_used < now - h)) = st.connections := by
      apply List.filter_eq_self.mpr
      intro p hp
      simpa using hyoung p hp
    rw [cleanup_characterization st now h hwf, h1, h2]
    rfl

/-- Witness for C6: a two-record registry swept with a cutoff between the
two ages, then with age 0, then with a large age. -/
theorem cleanup_inactive_spec_witness :
    cleanup_inactive_connections stTwo 10 6 =
      (1, ⟨[("b", { connection_id := "b", source := srcEx, engine := ⟨2⟩,
                    created_at := 5, last_used := 5, is_active := true })]⟩,
       [1]) ∧
    cleanup_inactive_connections stTwo 10 0 = (2, ⟨[]⟩, [1, 2]) ∧
    cleanup_inactive_connections stTwo 10 24 = (0, stTwo, []) := by
  have hwf : keysNodup stTwo :=
    show (stTwo.connections.map Prod.fst).Nodup by decide
  refine ⟨?_, ?_, ?_⟩
  · rw [(cleanup_inactive_spec stTwo 10 6 hwf).1]
    decide
  · rw [(cleanup_inactive_spec stTwo 10 0 hwf).2.1 (by decide) (by decide)]
    decide
  · exact (cleanup_inactive_spec stTwo 10 24 hwf).2.2 (by decide)

/-- C10: Registry consistency: starting from a well-formed registry,
after any sequence of `create_connection`, `close_connection` and
`cleanup_inactive_connections` calls, every connection id appearing in the
`list_connections` summaries is independently retrievable through
`get_connection`, which returns the record rather than not-found. -/
theorem registry_consistency (init : ManagerState) (ops : List Op) (now : Int)
    (hwf : wfState init) :
    ∀ d ∈ list_connections (runOps init ops),
      ((get_connection (runOps init ops) now d.connection_id).1).isSome := by
  intro d hd
  obtain ⟨hnd, hid⟩ := wf_runOps init ops hwf
  obtain ⟨c, hcmem, hcd⟩ := List.mem_map.mp hd
  obtain ⟨hcval, hcact⟩ := List.mem_filter.mp hcmem
  obtain ⟨p, hpl, hpc⟩ := List.mem_map.mp hcval
  have hkey : c.connection_id = p.1 := by
    rw [← hpc]
    exact hid p hpl
  have hdid : d.connection_id = c.connection_id := by
    rw [← hcd]
    rfl
  have hlook : (runOps init ops).connections.lookup p.1 = some p.2 :=
    lookup_eq_some_of_mem hnd (by simpa using hpl)
  unfold get_connection
  rw [hdid, hkey, hlook, hpc]
  have hactive : c.is_active = true := by simpa using hcact
  simp [hactive]

/-- Witness for C10: a concrete history (create, harmless sweep, close of
an unknown id) after which the listed id is retrievable. -/
theorem registry_consistency_witness :
    ((get_connection (runOps ⟨[]⟩ opsEx) 9
      ((to_dict (newConnection envEx srcEx)).connection_id)).1).isSome :=
  registry_consistency ⟨[]⟩ opsEx 9 wf_empty
    (to_dict (newConnection envEx srcEx)) (by decide)

end DbMcp
